import Mathlib

/-!
Verification of the `monitoring-scripts` repository: an HTTP application
health checker (`app_health_checker.py`) and a system resource monitor
(`system_health_monitor.py`).

The Python code is shallowly embedded: each source function becomes a Lean
function over explicit inputs. External effects (the curl subprocess, the
OS metric commands, the file system, wall-clock timestamps) are abstracted
as explicit outcome parameters; the pure computation on those outcomes is
translated faithfully from the source. Python string operations
(`strip`, `startswith`, `isdigit`, `int(...)`, `split`) are modelled over
the character list `String.data` so that everything is executable and
provable. Timestamps are omitted: they are wall-clock I/O and no claim
depends on them. Python `float` is modelled by `ℚ`.
-/

namespace Monitoring

/-- Python's whitespace characters for `str.strip()` (ASCII subset). -/
def isPySpace (c : Char) : Bool :=
  c = ' ' || c = '\t' || c = '\n' || c = '\r' || c = '\x0b' || c = '\x0c'

/-- Model of Python `s.strip()`: drop leading and trailing whitespace. -/
def pyStrip (s : String) : String :=
  String.mk (((s.data.dropWhile isPySpace).reverse.dropWhile isPySpace).reverse)

/-- Numeric value of a list of decimal digit characters. -/
def digitsToNat (l : List Char) : Nat :=
  l.foldl (fun a c => a * 10 + (c.toNat - 48)) 0

/-- Model of Python `s.isdigit()` (ASCII digits) followed by `int(s)`:
`some n` exactly when `s` is non-empty and all digits. -/
def pyParseNat (s : String) : Option Nat :=
  if s.data ≠ [] ∧ s.data.all Char.isDigit then some (digitsToNat s.data) else none

/-- Verdict status values used by `app_health_checker.py` (`'UP'`,
`'DOWN'`, `'UNKNOWN'`). -/
inductive Status where
  | UP
  | DOWN
  | UNKNOWN
deriving DecidableEq, Repr

/-- The `status_code` field of a health-check result: either the numeric
HTTP code or one of the sentinel strings `'N/A'`, `'TIMEOUT'`, `'ERROR'`. -/
inductive CodeVal where
  | num (n : Nat)
  | str (s : String)
deriving DecidableEq, Repr

/-- The dict returned by `check_application_health` (timestamp omitted:
wall-clock I/O). -/
structure HealthResult where
  url : String
  status : Status
  status_code : CodeVal
  message : String
deriving DecidableEq, Repr

/-- Outcome of the curl subprocess call in `check_application_health`:
its stdout on normal return, `subprocess.TimeoutExpired`, or any other
exception with its text. -/
inductive ProbeOutcome where
  | output (stdout : String)
  | timeout
  | error (e : String)
deriving DecidableEq, Repr

/-- The status-code range classification of `check_application_health`
(`app_health_checker.py` lines 54-68), as a helper on the already-parsed
integer code. -/
def classify_code (c : Nat) : Status × String :=
  if 200 ≤ c ∧ c < 300 then (Status.UP, "Application is functioning correctly")
  else if 300 ≤ c ∧ c < 400 then (Status.UP, "Application is up (redirect)")
  else if 400 ≤ c ∧ c < 500 then (Status.DOWN, "Client error (HTTP " ++ (toString c ++ ")"))
  else if 500 ≤ c ∧ c < 600 then (Status.DOWN, "Server error (HTTP " ++ (toString c ++ ")"))
  else (Status.UNKNOWN, "Unexpected status code: " ++ toString c)

/-- `check_application_health(url, timeout)` from `app_health_checker.py`,
as a function of the curl subprocess outcome. `status_code =
result.stdout.strip()`; if it is empty or not all digits the probe reports
DOWN with sentinel `N/A`; otherwise the integer code is classified by
range. The two `except` arms are the `timeout` and `error` outcomes. -/
def check_application_health (url : String) (timeout : Nat) (o : ProbeOutcome) : HealthResult :=
  match o with
  | ProbeOutcome.output stdout =>
    match pyParseNat (pyStrip stdout) with
    | none =>
      { url := url, status := Status.DOWN, status_code := CodeVal.str "N/A",
        message := "Unable to connect or receive response" }
    | some c =>
      { url := url, status := (classify_code c).1, status_code := CodeVal.num c,
        message := (classify_code c).2 }
  | ProbeOutcome.timeout =>
      { url := url, status := Status.DOWN, status_code := CodeVal.str "TIMEOUT",
        message := "Request timeout after " ++ (toString timeout ++ " seconds") }
  | ProbeOutcome.error e =>
      { url := url, status := Status.DOWN, status_code := CodeVal.str "ERROR",
        message := "Error: " ++ e }

/-- The argv list built for curl in `check_application_health`
(lines 36-37): `--max-time` is the caller-supplied timeout. -/
def curl_cmd (url : String) (timeout : Nat) : List String :=
  ["curl", "-s", "-o", "/dev/null", "-w", "%{http_code}",
   "--max-time", toString timeout, "--insecure", url]

/-- The `timeout=` argument passed to `subprocess.run` (line 39):
the caller-supplied timeout plus a 2-second grace. -/
def subprocess_timeout (timeout : Nat) : Nat :=
  timeout + 2

end Monitoring

namespace Monitoring

/-- C1: classification of a probe response is exactly by half-open code
ranges: [200,300) is UP "Application is functioning correctly"; [300,400)
is UP with the redirect message; [400,500) is DOWN with the client-error
message; [500,600) is DOWN with the server-error message; any other
integer is UNKNOWN; and an empty or non-numeric response is DOWN with a
descriptive message. -/
theorem C1_http_classification (url s : String) (t c : Nat) :
    ((200 ≤ c ∧ c < 300) →
      classify_code c = (Status.UP, "Application is functioning correctly")) ∧
    ((300 ≤ c ∧ c < 400) →
      classify_code c = (Status.UP, "Application is up (redirect)")) ∧
    ((400 ≤ c ∧ c < 500) →
      classify_code c = (Status.DOWN, "Client error (HTTP " ++ (toString c ++ ")"))) ∧
    ((500 ≤ c ∧ c < 600) →
      classify_code c = (Status.DOWN, "Server error (HTTP " ++ (toString c ++ ")"))) ∧
    ((c < 200 ∨ 600 ≤ c) → (classify_code c).1 = Status.UNKNOWN) ∧
    (pyParseNat (pyStrip s) = some c →
      check_application_health url t (ProbeOutcome.output s) =
        { url := url, status := (classify_code c).1, status_code := CodeVal.num c,
          message := (classify_code c).2 }) ∧
    (pyParseNat (pyStrip s) = none →
      check_application_health url t (ProbeOutcome.output s) =
        { url := url, status := Status.DOWN, status_code := CodeVal.str "N/A",
          message := "Unable to connect or receive response" }) := by
  refine ⟨?_, ?_, ?_, ?_, ?_, ?_, ?_⟩
  · intro h
    rw [classify_code, if_pos h]
  · intro h
    rw [classify_code, if_neg (by omega), if_pos h]
  · intro h
    rw [classify_code, if_neg (by omega), if_neg (by omega), if_pos h]
  · intro h
    rw [classify_code, if_neg (by omega), if_neg (by omega), if_neg (by omega), if_pos h]
  · intro h
    rw [classify_code, if_neg (by omega), if_neg (by omega), if_neg (by omega),
      if_neg (by omega)]
  · intro h
    simp only [check_application_health, h]
  · intro h
    simp only [check_application_health, h]

/-- Concrete instances of the C1 classification: codes 204, 301, 404, 503
and 700, plus the non-numeric response "abc". -/
theorem C1_http_classification_witness :
    classify_code 204 = (Status.UP, "Application is functioning correctly") ∧
    classify_code 301 = (Status.UP, "Application is up (redirect)") ∧
    classify_code 404 = (Status.DOWN, "Client error (HTTP 404)") ∧
    classify_code 503 = (Status.DOWN, "Server error (HTTP 503)") ∧
    (classify_code 700).1 = Status.UNKNOWN ∧
    check_application_health "https://x.example" 5 (ProbeOutcome.output "abc") =
      { url := "https://x.example", status := Status.DOWN, status_code := CodeVal.str "N/A",
        message := "Unable to connect or receive response" } := by
  refine ⟨?_, ?_, ?_, ?_, ?_, ?_⟩
  · exact (C1_http_classification "u" "s" 5 204).1 (by omega)
  · exact (C1_http_classification "u" "s" 5 301).2.1 (by omega)
  · have h := (C1_http_classification "u" "s" 5 404).2.2.1 (by omega)
    simpa using h
  · have h := (C1_http_classification "u" "s" 5 503).2.2.2.1 (by omega)
    simpa using h
  · exact (C1_http_classification "u" "s" 5 700).2.2.2.2.1 (by omega)
  · exact (C1_http_classification "https://x.example" "abc" 5 0).2.2.2.2.2.2 (by decide)

end Monitoring

namespace Monitoring

/-- The `{x:.1f}` rendering used in alert strings, modelled over `ℚ`
(nonnegative readings): value rounded to one decimal and printed as
`whole.frac`. -/
def fmt1 (q : ℚ) : String :=
  let n : Int := round (q * 10)
  toString (n / 10) ++ ("." ++ toString ((n % 10).natAbs))

/-- The CPU alert string of `check_system_health` (line 134). -/
def cpuAlertMsg (v : ℚ) (t : Int) : String :=
  "CPU usage is HIGH: " ++ (fmt1 v ++ ("% (threshold: " ++ (toString t ++ "%)")))

/-- The memory alert string of `check_system_health` (line 137). -/
def memoryAlertMsg (v : ℚ) (t : Int) : String :=
  "Memory usage is HIGH: " ++ (fmt1 v ++ ("% (threshold: " ++ (toString t ++ "%)")))

/-- The disk alert string of `check_system_health` (line 140). -/
def diskAlertMsg (v : ℚ) (t : Int) : String :=
  "Disk usage is HIGH: " ++ (fmt1 v ++ ("% (threshold: " ++ (toString t ++ "%)")))

/-- The dict returned by `check_system_health` (timestamp and
`top_processes` omitted: wall-clock and process-table I/O that no claim
depends on). Note the record carries no UP/DOWN status field: resource
checks report alerts only. -/
structure SystemHealth where
  cpu_usage : ℚ
  memory_usage : ℚ
  disk_usage : ℚ
  alerts : List String
deriving DecidableEq, Repr

/-- `check_system_health(thresholds)` from `system_health_monitor.py`
(lines 120-149), as a function of the three measured usages and of the
`cpu`, `memory`, `disk` entries of the thresholds dict. An alert is
appended for each metric whose value is strictly greater than its
threshold, in the order cpu, memory, disk. -/
def check_system_health (cpu memory disk : ℚ) (tc tm td : Int) : SystemHealth :=
  { cpu_usage := cpu, memory_usage := memory, disk_usage := disk,
    alerts :=
      (if (tc : ℚ) < cpu then [cpuAlertMsg cpu tc] else []) ++
      ((if (tm : ℚ) < memory then [memoryAlertMsg memory tm] else []) ++
       (if (td : ℚ) < disk then [diskAlertMsg disk td] else [])) }

/-- If the first character of `s` is `c`, it is still the first character
of `s ++ t`. -/
theorem data_head_append (s t : String) (c : Char) (h : s.data.head? = some c) :
    (s ++ t).data.head? = some c := by
  rw [String.data_append]
  cases hs : s.data with
  | nil => rw [hs] at h; simp at h
  | cons a l => rw [hs] at h; simpa using h

/-- A CPU alert string starts with `'C'`. -/
theorem cpuAlertMsg_head (v : ℚ) (t : Int) : (cpuAlertMsg v t).data.head? = some 'C' :=
  data_head_append _ _ _ rfl

/-- A memory alert string starts with `'M'`. -/
theorem memoryAlertMsg_head (v : ℚ) (t : Int) : (memoryAlertMsg v t).data.head? = some 'M' :=
  data_head_append _ _ _ rfl

/-- A disk alert string starts with `'D'`. -/
theorem diskAlertMsg_head (v : ℚ) (t : Int) : (diskAlertMsg v t).data.head? = some 'D' :=
  data_head_append _ _ _ rfl

/-- Alert strings of distinct metrics are distinct (first characters
differ). -/
theorem alertMsg_pairwise_ne (v w : ℚ) (t u : Int) :
    cpuAlertMsg v t ≠ memoryAlertMsg w u ∧ memoryAlertMsg v t ≠ cpuAlertMsg w u ∧
    cpuAlertMsg v t ≠ diskAlertMsg w u ∧ diskAlertMsg v t ≠ cpuAlertMsg w u ∧
    memoryAlertMsg v t ≠ diskAlertMsg w u ∧ diskAlertMsg v t ≠ memoryAlertMsg w u := by
  refine ⟨fun h => ?_, fun h => ?_, fun h => ?_, fun h => ?_, fun h => ?_, fun h => ?_⟩ <;>
    [ (have h1 := cpuAlertMsg_head v t; rw [h, memoryAlertMsg_head] at h1);
      (have h1 := memoryAlertMsg_head v t; rw [h, cpuAlertMsg_head] at h1);
      (have h1 := cpuAlertMsg_head v t; rw [h, diskAlertMsg_head] at h1);
      (have h1 := diskAlertMsg_head v t; rw [h, cpuAlertMsg_head] at h1);
      (have h1 := memoryAlertMsg_head v t; rw [h, diskAlertMsg_head] at h1);
      (have h1 := diskAlertMsg_head v t; rw [h, memoryAlertMsg_head] at h1)] <;>
    exact absurd h1 (by decide)

/-- C2: for each resource metric, `check_system_health` emits an alert
entry if and only if the measured value is strictly greater than the
policy threshold for that metric, and then exactly one alert for that
metric; a value exactly equal to the threshold contributes zero alerts.
The result record carries no UP/DOWN verdict field at all. -/
theorem C2_threshold_alerts (cpu memory disk : ℚ) (tc tm td : Int) :
    ((check_system_health cpu memory disk tc tm td).alerts.countP
        (fun a => a == cpuAlertMsg cpu tc) = if (tc : ℚ) < cpu then 1 else 0) ∧
    ((check_system_health cpu memory disk tc tm td).alerts.countP
        (fun a => a == memoryAlertMsg memory tm) = if (tm : ℚ) < memory then 1 else 0) ∧
    ((check_system_health cpu memory disk tc tm td).alerts.countP
        (fun a => a == diskAlertMsg disk td) = if (td : ℚ) < disk then 1 else 0) ∧
    (cpu = (tc : ℚ) →
      (check_system_health cpu memory disk tc tm td).alerts.countP
        (fun a => a == cpuAlertMsg cpu tc) = 0) := by
  have hne := fun (v w : ℚ) (t u : Int) => alertMsg_pairwise_ne v w t u
  refine ⟨?_, ?_, ?_, ?_⟩
  · simp only [check_system_health, List.countP_append]
    by_cases h1 : (tc : ℚ) < cpu <;> by_cases h2 : (tm : ℚ) < memory <;>
      by_cases h3 : (td : ℚ) < disk <;>
      simp [h1, h2, h3, (hne memory cpu tm tc).2.1, (hne disk cpu td tc).2.2.2.1]
  · simp only [check_system_health, List.countP_append]
    by_cases h1 : (tc : ℚ) < cpu <;> by_cases h2 : (tm : ℚ) < memory <;>
      by_cases h3 : (td : ℚ) < disk <;>
      simp [h1, h2, h3, (hne cpu memory tc tm).1, (hne disk memory td tm).2.2.2.2.2]
  · simp only [check_system_health, List.countP_append]
    by_cases h1 : (tc : ℚ) < cpu <;> by_cases h2 : (tm : ℚ) < memory <;>
      by_cases h3 : (td : ℚ) < disk <;>
      simp [h1, h2, h3, (hne cpu disk tc td).2.2.1, (hne memory disk tm td).2.2.2.2.1]
  · intro heq
    simp only [check_system_health, List.countP_append]
    have h1 : ¬ ((tc : ℚ) < cpu) := by rw [heq]; exact lt_irrefl _
    by_cases h2 : (tm : ℚ) < memory <;> by_cases h3 : (td : ℚ) < disk <;>
      simp [h1, h2, h3, (hne memory cpu tm tc).2.1, (hne disk cpu td tc).2.2.2.1]

/-- Concrete instance of C2: with threshold 80, a reading of exactly 80
contributes no alert, a reading of 80.01 contributes one. -/
theorem C2_threshold_alerts_witness :
    (check_system_health 80 0 0 80 80 80).alerts.countP
      (fun a => a == cpuAlertMsg 80 80) = 0 ∧
    (check_system_health (8001/100) 0 0 80 80 80).alerts.countP
      (fun a => a == cpuAlertMsg (8001/100) 80) = 1 := by
  constructor
  · exact (C2_threshold_alerts 80 0 0 80 80 80).2.2.2 (by norm_num)
  · have h := (C2_threshold_alerts (8001/100) 0 0 80 80 80).1
    rw [if_pos (by norm_num)] at h
    exact h

end Monitoring

namespace Monitoring

/-- Outcome of the platform-specific CPU extraction in `get_cpu_usage`
(`system_health_monitor.py` lines 36-56): the `top`-based pipeline
succeeded with a float value, or it failed and `/proc/loadavg` was read
with the given 1-minute load, or both failed. -/
inductive CpuOutcome where
  | primary (v : ℚ)
  | loadavg (load : ℚ)
  | failed
deriving DecidableEq, Repr

/-- `get_cpu_usage()` as a function of the extraction outcome: the primary
value when available, else the degraded estimate `min(load * 25, 100)`,
else `0.0`. It always returns a number. -/
def get_cpu_usage : CpuOutcome → ℚ
  | CpuOutcome.primary v => v
  | CpuOutcome.loadavg l => min (l * 25) 100
  | CpuOutcome.failed => 0

/-- Outcome of the metric extraction in `get_memory_usage` (lines 58-83):
the Linux `/proc/meminfo` path with its `MemTotal`/`MemAvailable` kB
values, the macOS `sysctl`/`vm_stat` path with total bytes and free page
count, or any failure (caught by the bare `except`). -/
inductive MemOutcome where
  | linux (memTotal memAvailable : Int)
  | darwin (total freePages : Int)
  | failure
deriving DecidableEq, Repr

/-- Python `round(x, 2)`, modelled as rounding to the nearest multiple of
1/100 over `ℚ`. -/
def round2 (q : ℚ) : ℚ :=
  ((round (q * 100) : ℤ) : ℚ) / 100

/-- `get_memory_usage()` as a function of the extraction outcome. On both
success paths the usage percentage is computed and rounded to 2 decimals;
on failure the bare default `0.0` is returned, with no error indication. -/
def get_memory_usage : MemOutcome → ℚ
  | MemOutcome.linux t a => round2 ((((t : ℚ) - (a : ℚ)) / (t : ℚ)) * 100)
  | MemOutcome.darwin t fp => round2 ((((t : ℚ) - (fp : ℚ) * 4096) / (t : ℚ)) * 100)
  | MemOutcome.failure => 0

/-- A string with a first character is not the empty string once extended
on the right. -/
theorem append_ne_empty (s t : String) (c : Char) (h : s.data.head? = some c) :
    s ++ t ≠ "" := by
  intro e
  have h1 := data_head_append s t c h
  rw [e] at h1
  simp at h1

/-- C6: when the platform-specific CPU extraction fails, `get_cpu_usage`
falls back to the degraded estimate `(1-minute load) * 25` capped at 100,
and on every outcome it returns a number (never None): even the double
failure path returns `0.0`. -/
theorem C6_cpu_fallback (l : ℚ) (o : CpuOutcome) :
    get_cpu_usage (CpuOutcome.loadavg l) = min (l * 25) 100 ∧
    get_cpu_usage (CpuOutcome.loadavg l) ≤ 100 ∧
    get_cpu_usage CpuOutcome.failed = 0 ∧
    ∃ v : ℚ, get_cpu_usage o = v :=
  ⟨rfl, min_le_right _ _, rfl, ⟨_, rfl⟩⟩

/-- C3 fails on the code: `get_memory_usage` has a failure path that
returns the bare default `0.0` with no message or error indication at all;
the value is indistinguishable from a genuine reading of 0% usage
(e.g. `MemTotal = MemAvailable = 1000`). -/
theorem C3_counterexample :
    get_memory_usage MemOutcome.failure = 0 ∧
    get_memory_usage (MemOutcome.linux 1000 1000) = 0 ∧
    get_memory_usage MemOutcome.failure = get_memory_usage (MemOutcome.linux 1000 1000) := by
  refine ⟨rfl, ?_, ?_⟩ <;> norm_num [get_memory_usage, round2]

/-- C3 amended: every failure path of the HTTP probe carries a non-empty
human-readable message (timeout, generic error, and unreadable response),
but the resource-metric probers' failure paths return bare numeric
defaults carrying no message: the CPU prober degrades to
`min(load * 25, 100)` and then to `0.0`, and the memory prober returns
`0.0`. -/
theorem C3_amended_failure_messages (url e s : String) (t : Nat) (l : ℚ)
    (hs : pyParseNat (pyStrip s) = none) :
    (check_application_health url t ProbeOutcome.timeout).message =
      "Request timeout after " ++ (toString t ++ " seconds") ∧
    (check_application_health url t ProbeOutcome.timeout).message ≠ "" ∧
    (check_application_health url t (ProbeOutcome.error e)).message = "Error: " ++ e ∧
    (check_application_health url t (ProbeOutcome.error e)).message ≠ "" ∧
    (check_application_health url t (ProbeOutcome.output s)).message =
      "Unable to connect or receive response" ∧
    (check_application_health url t (ProbeOutcome.output s)).message ≠ "" ∧
    get_cpu_usage (CpuOutcome.loadavg l) = min (l * 25) 100 ∧
    get_cpu_usage CpuOutcome.failed = 0 ∧
    get_memory_usage MemOutcome.failure = 0 := by
  refine ⟨rfl, append_ne_empty _ _ 'R' rfl, rfl, append_ne_empty _ _ 'E' rfl, ?_, ?_, rfl,
    rfl, rfl⟩
  · simp only [check_application_health, hs]
  · simp only [check_application_health, hs]
    decide

/-- Concrete instance of the amended C3 at `s = ""` (curl produced no
output), `e = "boom"`, `t = 5`, `l = 1`. -/
theorem C3_amended_failure_messages_witness :
    (check_application_health "https://x.example" 5 ProbeOutcome.timeout).message =
      "Request timeout after " ++ (toString 5 ++ " seconds") ∧
    (check_application_health "https://x.example" 5 (ProbeOutcome.output "")).message =
      "Unable to connect or receive response" ∧
    get_memory_usage MemOutcome.failure = 0 :=
  have h := C3_amended_failure_messages "https://x.example" "boom" "" 5 1 (by decide)
  ⟨h.1, h.2.2.2.2.1, h.2.2.2.2.2.2.2.2⟩

/-- C4: the probe passes `--max-time` equal to the caller-supplied timeout
to curl (hard timeout of at most `t`), gives the subprocess call a hard
bound of `t + 2` seconds (grace = 2), and when that bound expires the
result is DOWN with sentinel code `TIMEOUT` and a message naming the
timeout. -/
theorem C4_timeout_handling (url : String) (t : Nat) :
    subprocess_timeout t = t + 2 ∧
    (curl_cmd url t)[6]? = some "--max-time" ∧
    (curl_cmd url t)[7]? = some (toString t) ∧
    check_application_health url t ProbeOutcome.timeout =
      { url := url, status := Status.DOWN, status_code := CodeVal.str "TIMEOUT",
        message := "Request timeout after " ++ (toString t ++ " seconds") } :=
  ⟨rfl, rfl, rfl, rfl⟩

end Monitoring

namespace Monitoring

/-- Model of Python `line.startswith('#')` on the raw (unstripped) line. -/
def startsWithHash (s : String) : Bool :=
  match s.data with
  | '#' :: _ => true
  | _ => false

/-- `read_urls_from_file` from `app_health_checker.py` (line 149), as a
function of the file's lines: keep the lines whose `strip()` is non-empty
and which do not start (at their very first character) with `'#'`, each
stripped. Note the `startswith('#')` test runs on the raw line, before
stripping. -/
def read_urls_from_file (lines : List String) : List String :=
  (lines.filter (fun l => !(pyStrip l).data.isEmpty && !startsWithHash l)).map pyStrip

/-- The claimed line filter, written from the claim's words: walk the
lines in order; drop a line if it begins with `'#'` or is blank; keep the
others stripped. -/
def keptUrlsSpec : List String → List String
  | [] => []
  | l :: ls =>
    if startsWithHash l || (pyStrip l).data.isEmpty then keptUrlsSpec ls
    else pyStrip l :: keptUrlsSpec ls

/-- The action `main()` of `app_health_checker.py` takes once the URL list
is resolved (lines 192-204): exit with status 1 and a message, start the
continuous monitor, or run the one-shot batch check. -/
inductive MainAction where
  | exit (code : Nat) (msg : String)
  | runContinuous (url : String) (interval timeout : Nat)
  | runOnce (urls : List String) (timeout : Nat)
deriving DecidableEq, Repr

/-- The dispatch logic of `main()` (lines 192-204): empty list exits with
an error; continuous mode with more than one URL exits with an error;
continuous mode with one URL monitors it; otherwise the one-shot batch
check runs. -/
def main_dispatch (urls : List String) (continuous : Bool) (interval timeout : Nat) :
    MainAction :=
  if urls.isEmpty then MainAction.exit 1 "Error: No URLs provided"
  else if continuous then
    if urls.length > 1 then MainAction.exit 1 "Error: Continuous mode requires exactly one URL"
    else MainAction.runContinuous (urls.headD "") interval timeout
  else MainAction.runOnce urls timeout

/-- C5: continuous mode with more than one target exits with the non-zero
status 1 and an error message; for every such target list the dispatched
action is the failure exit and never a probing action (neither continuous
monitoring nor a one-shot check). -/
theorem C5_continuous_multi_target (urls : List String) (interval timeout : Nat)
    (h : 1 < urls.length) :
    main_dispatch urls true interval timeout =
      MainAction.exit 1 "Error: Continuous mode requires exactly one URL" ∧
    (∀ u i t2, main_dispatch urls true interval timeout ≠ MainAction.runContinuous u i t2) ∧
    (∀ us t2, main_dispatch urls true interval timeout ≠ MainAction.runOnce us t2) ∧
    (1 : Nat) ≠ 0 := by
  have h0 : urls.isEmpty = false := by
    cases urls with
    | nil => simp at h
    | cons a l => rfl
  refine ⟨?_, ?_, ?_, by decide⟩ <;> simp [main_dispatch, h0, h]

/-- Concrete instance of C5 at a two-URL list. -/
theorem C5_continuous_multi_target_witness :
    main_dispatch ["https://a.example", "https://b.example"] true 60 5 =
      MainAction.exit 1 "Error: Continuous mode requires exactly one URL" :=
  (C5_continuous_multi_target ["https://a.example", "https://b.example"] 60 5 (by decide)).1

/-- C7 fails on the code: a line whose first non-whitespace character is
`'#'` but which begins with a space is not excluded; it is kept (stripped)
in the resulting URL list. -/
theorem C7_counterexample :
    read_urls_from_file ["  # comment"] = ["# comment"] ∧
    read_urls_from_file ["  # comment"] ≠ [] := by
  constructor <;> decide

/-- C7 amended: the URL list is exactly the file's lines in order with
surrounding whitespace stripped from each kept line, excluding blank lines
and the lines whose very first character (before any stripping) is `'#'`;
a line with whitespace before the `'#'` is kept. -/
theorem C7_amended_file_filter (lines : List String) :
    read_urls_from_file lines = keptUrlsSpec lines := by
  induction lines with
  | nil => rfl
  | cons l ls ih =>
    by_cases h1 : startsWithHash l = true <;>
      by_cases h2 : (pyStrip l).data.isEmpty = true <;>
      simp [read_urls_from_file, keptUrlsSpec, List.filter_cons, h1, h2] <;>
      simpa [read_urls_from_file] using ih

end Monitoring

namespace Monitoring

/-- Model of Python `str.split(sep)` for a one-character separator, on the
character list: splitting the empty text yields one empty group, and each
separator occurrence starts a new group. -/
def splitCharAux (c : Char) : List Char → List (List Char)
  | [] => [[]]
  | ch :: rest =>
    let r := splitCharAux c rest
    if ch = c then [] :: r
    else
      match r with
      | g :: gs => (ch :: g) :: gs
      | [] => [[ch]]

/-- Python `s.split(c)` for a one-character separator `c`. -/
def pySplit (c : Char) (s : String) : List String :=
  (splitCharAux c s.data).map String.mk

/-- Model of Python `int(s)` on an already-stripped string: an optional
sign followed by at least one digit. -/
def pyParseInt (s : String) : Option Int :=
  match s.data with
  | '-' :: rest =>
    if rest ≠ [] ∧ rest.all Char.isDigit then some (-(digitsToNat rest : Int)) else none
  | '+' :: rest =>
    if rest ≠ [] ∧ rest.all Char.isDigit then some ((digitsToNat rest : Int)) else none
  | _ => (pyParseNat s).map (fun n => (n : Int))

/-- `DEFAULT_THRESHOLDS` from `system_health_monitor.py` (lines 30-34),
as an association list modelling the Python dict. -/
def DEFAULT_THRESHOLDS : List (String × Int) :=
  [("cpu", 80), ("memory", 80), ("disk", 80)]

/-- Dict update `d[k] = v`: overwrite the binding of `k` in place, or
append a new binding. -/
def dictSet : List (String × Int) → String → Int → List (String × Int)
  | [], k, v => [(k, v)]
  | (k0, v0) :: rest, k, v =>
    if k0 = k then (k, v) :: rest else (k0, v0) :: dictSet rest k v

/-- Dict lookup `d[k]`. -/
def dictGet : List (String × Int) → String → Option Int
  | [], _ => none
  | (k0, v0) :: rest, k => if k0 = k then some v0 else dictGet rest k

/-- One `key=value` pair of the thresholds string: Python's
`key, value = pair.split('=')` (exactly two parts, else `ValueError`)
followed by `int(value.strip())`, keyed by `key.strip()`. -/
def parsePair (p : String) : Option (String × Int) :=
  match pySplit '=' p with
  | [k, v] => (pyParseInt (pyStrip v)).map (fun n => (pyStrip k, n))
  | _ => none

/-- `parse_thresholds(threshold_str)` from `system_health_monitor.py`
(lines 224-233): start from a copy of `DEFAULT_THRESHOLDS`; a `None` or
empty string changes nothing; otherwise split on `','` and store each
`key=value` pair in order. A malformed pair raises `ValueError`, modelled
as `none`. -/
def parse_thresholds : Option String → Option (List (String × Int))
  | none => some DEFAULT_THRESHOLDS
  | some s =>
    if s = "" then some DEFAULT_THRESHOLDS
    else
      match (pySplit ',' s).mapM parsePair with
      | none => none
      | some ps => some (ps.foldl (fun d kv => dictSet d kv.1 kv.2) DEFAULT_THRESHOLDS)

/-- Looking up the key just set yields the value just set. -/
theorem dictGet_dictSet_self (d : List (String × Int)) (k : String) (v : Int) :
    dictGet (dictSet d k v) k = some v := by
  induction d with
  | nil => simp [dictSet, dictGet]
  | cons p rest ih =>
    obtain ⟨k0, v0⟩ := p
    by_cases h : k0 = k <;> simp [dictSet, dictGet, h, ih]

/-- Setting one key leaves the other keys' bindings unchanged. -/
theorem dictGet_dictSet_ne (d : List (String × Int)) (k k' : String) (v : Int)
    (h : k' ≠ k) : dictGet (dictSet d k v) k' = dictGet d k' := by
  induction d with
  | nil => simp [dictSet, dictGet, Ne.symm h]
  | cons p rest ih =>
    obtain ⟨k0, v0⟩ := p
    by_cases h0 : k0 = k
    · subst h0
      simp [dictSet, dictGet, Ne.symm h]
    · simp only [dictSet, if_neg h0]
      by_cases h1 : k0 = k' <;> simp [dictGet, h1, ih]

/-- Folding a pair list whose keys all avoid `k` does not change the
binding of `k`. -/
theorem dictGet_foldl_of_no_key (ps : List (String × Int)) (d : List (String × Int))
    (k : String) (h : ∀ kv ∈ ps, kv.1 ≠ k) :
    dictGet (ps.foldl (fun d kv => dictSet d kv.1 kv.2) d) k = dictGet d k := by
  induction ps generalizing d with
  | nil => rfl
  | cons p rest ih =>
    rw [List.foldl_cons, ih _ (fun kv hkv => h kv (List.mem_cons_of_mem p hkv)),
      dictGet_dictSet_ne]
    exact fun e => h p (List.mem_cons_self p rest) (Eq.symm e)

/-- Folding a pair list in which `k` appears exactly once binds `k` to the
value of that occurrence. -/
theorem dictGet_foldl_of_unique_key (ps : List (String × Int)) (d : List (String × Int))
    (k : String) (v : Int) (hmem : (k, v) ∈ ps)
    (huniq : ps.countP (fun kv => kv.1 == k) = 1) :
    dictGet (ps.foldl (fun d kv => dictSet d kv.1 kv.2) d) k = some v := by
  induction ps generalizing d with
  | nil => simp at hmem
  | cons p rest ih =>
    obtain ⟨k0, v0⟩ := p
    by_cases hk : k0 = k
    · subst hk
      rw [List.countP_cons] at huniq
      simp only [beq_self_eq_true, if_pos] at huniq
      have hrest : rest.countP (fun kv => kv.1 == k0) = 0 := by omega
      have hnk : ∀ kv ∈ rest, kv.1 ≠ k0 := by
        intro kv hkv
        have := List.countP_eq_zero.mp hrest kv hkv
        simpa using this
      have hv : v = v0 := by
        rcases List.mem_cons.mp hmem with h1 | h1
        · exact congrArg Prod.snd h1
        · exact absurd rfl (hnk (k0, v) h1)
      subst hv
      rw [List.foldl_cons, dictGet_foldl_of_no_key rest _ k0 hnk, dictGet_dictSet_self]
    · have hmem' : (k, v) ∈ rest := by
        rcases List.mem_cons.mp hmem with h1 | h1
        · exact absurd (congrArg Prod.fst h1).symm hk
        · exact h1
      have huniq' : rest.countP (fun kv => kv.1 == k) = 1 := by
        rw [List.countP_cons] at huniq
        simpa [hk] using huniq
      rw [List.foldl_cons]
      exact ih _ hmem' huniq'

/-- C8: parsing a thresholds string maps every key that appears (once) to
its given integer value, leaves every unnamed key among cpu, memory, disk
at the default 80, and an absent or empty string yields the defaults
cpu = 80, memory = 80, disk = 80. -/
theorem C8_parse_thresholds (s : String) (ps d : List (String × Int))
    (hs : s ≠ "")
    (hps : (pySplit ',' s).mapM parsePair = some ps)
    (hd : parse_thresholds (some s) = some d) :
    (∀ k v, (k, v) ∈ ps → ps.countP (fun kv => kv.1 == k) = 1 → dictGet d k = some v) ∧
    (∀ k, (k = "cpu" ∨ k = "memory" ∨ k = "disk") → (∀ kv ∈ ps, kv.1 ≠ k) →
      dictGet d k = some 80) ∧
    parse_thresholds none = some DEFAULT_THRESHOLDS ∧
    parse_thresholds (some "") = some DEFAULT_THRESHOLDS ∧
    dictGet DEFAULT_THRESHOLDS "cpu" = some 80 ∧
    dictGet DEFAULT_THRESHOLDS "memory" = some 80 ∧
    dictGet DEFAULT_THRESHOLDS "disk" = some 80 := by
  simp only [parse_thresholds, if_neg hs, hps] at hd
  rw [Option.some.injEq] at hd
  subst hd
  refine ⟨?_, ?_, rfl, rfl, rfl, rfl, rfl⟩
  · intro k v hmem huniq
    exact dictGet_foldl_of_unique_key ps DEFAULT_THRESHOLDS k v hmem huniq
  · intro k hk hnone
    rw [dictGet_foldl_of_no_key ps DEFAULT_THRESHOLDS k hnone]
    rcases hk with h | h | h <;> subst h <;> rfl

/-- Concrete instance of C8: parsing `"cpu=90"` yields cpu bound to 90
with memory still at the default 80. -/
theorem C8_parse_thresholds_witness :
    dictGet [("cpu", 90), ("memory", 80), ("disk", 80)] "cpu" = some 90 ∧
    dictGet [("cpu", 90), ("memory", 80), ("disk", 80)] "memory" = some 80 := by
  have h := C8_parse_thresholds "cpu=90" [("cpu", 90)]
    [("cpu", 90), ("memory", 80), ("disk", 80)] (by decide) (by decide) (by decide)
  exact ⟨h.1 "cpu" 90 (by decide) (by decide),
    h.2.1 "memory" (Or.inr (Or.inl rfl)) (by decide)⟩

end Monitoring

namespace Monitoring

/-- The data produced by one run of `check_multiple_urls`
(`app_health_checker.py` lines 109-129): the per-URL results, the UP and
DOWN tallies, and the printed summary line. -/
structure RunReport where
  results : List HealthResult
  up_count : Nat
  down_count : Nat
  summary : String
deriving DecidableEq, Repr

/-- `check_multiple_urls(urls, timeout)` as a function of each target's
probe outcome: probe every URL in order, count the results whose status is
exactly `UP` and exactly `DOWN`, and render the summary line. -/
def check_multiple_urls (targets : List (String × ProbeOutcome)) (timeout : Nat) :
    RunReport :=
  let results := targets.map (fun p => check_application_health p.1 timeout p.2)
  let up_count := results.countP (fun r => r.status == Status.UP)
  let down_count := results.countP (fun r => r.status == Status.DOWN)
  { results := results, up_count := up_count, down_count := down_count,
    summary := "SUMMARY: " ++ (toString up_count ++ (" UP | " ++ (toString down_count ++
      (" DOWN | Total: " ++ toString results.length)))) }

/-- Every health result is UP, DOWN or UNKNOWN, so the three tallies
partition the result list. -/
theorem status_count_partition (rs : List HealthResult) :
    rs.countP (fun r => r.status == Status.UP) +
      rs.countP (fun r => r.status == Status.DOWN) +
      rs.countP (fun r => r.status == Status.UNKNOWN) = rs.length := by
  induction rs with
  | nil => rfl
  | cons r rest ih =>
    rw [List.countP_cons, List.countP_cons, List.countP_cons, List.length_cons]
    cases h : r.status <;> simp [h] <;> omega

/-- C9: on the two-target one-shot scenario where the first probe answers
HTTP 200 and the second HTTP 503, the report holds one UP verdict then one
DOWN verdict and its summary line ends with "1 UP | 1 DOWN | Total: 2". -/
theorem C9_two_target_scenario :
    ((check_multiple_urls [("https://good.example", ProbeOutcome.output "200"),
        ("https://bad.example", ProbeOutcome.output "503")] 5).results.map
      (fun r => r.status)) = [Status.UP, Status.DOWN] ∧
    (check_multiple_urls [("https://good.example", ProbeOutcome.output "200"),
        ("https://bad.example", ProbeOutcome.output "503")] 5).up_count = 1 ∧
    (check_multiple_urls [("https://good.example", ProbeOutcome.output "200"),
        ("https://bad.example", ProbeOutcome.output "503")] 5).down_count = 1 ∧
    (check_multiple_urls [("https://good.example", ProbeOutcome.output "200"),
        ("https://bad.example", ProbeOutcome.output "503")] 5).summary =
      "SUMMARY: 1 UP | 1 DOWN | Total: 2" ∧
    List.isSuffixOf ("1 UP | 1 DOWN | Total: 2").data
      ((check_multiple_urls [("https://good.example", ProbeOutcome.output "200"),
        ("https://bad.example", ProbeOutcome.output "503")] 5).summary).data = true := by
  refine ⟨by decide, by decide, by decide, by decide, by decide⟩

/-- C10: the summary tallies count exactly the UP results and exactly the
DOWN results; together with the UNKNOWN results they partition the total,
and a probe answering the out-of-range code 700 yields an UNKNOWN result
counted in the total but in neither tally, making UP + DOWN strictly less
than Total. -/
theorem C10_summary_counts (targets : List (String × ProbeOutcome)) (t : Nat) :
    (check_multiple_urls targets t).up_count =
      (check_multiple_urls targets t).results.countP (fun r => r.status == Status.UP) ∧
    (check_multiple_urls targets t).down_count =
      (check_multiple_urls targets t).results.countP (fun r => r.status == Status.DOWN) ∧
    (check_multiple_urls targets t).up_count + (check_multiple_urls targets t).down_count +
      (check_multiple_urls targets t).results.countP (fun r => r.status == Status.UNKNOWN) =
      (check_multiple_urls targets t).results.length ∧
    (check_multiple_urls [("https://odd.example", ProbeOutcome.output "700")] 5).up_count
      = 0 ∧
    (check_multiple_urls [("https://odd.example", ProbeOutcome.output "700")] 5).down_count
      = 0 ∧
    (check_multiple_urls [("https://odd.example", ProbeOutcome.output "700")] 5).results.map
      (fun r => r.status) = [Status.UNKNOWN] ∧
    (check_multiple_urls [("https://odd.example", ProbeOutcome.output "700")] 5).up_count +
      (check_multiple_urls [("https://odd.example", ProbeOutcome.output "700")] 5).down_count
      < (check_multiple_urls
          [("https://odd.example", ProbeOutcome.output "700")] 5).results.length := by
  exact ⟨rfl, rfl, status_count_partition _, by decide, by decide, by decide, by decide⟩

end Monitoring
